import Mathlib

/-!
Shallow embedding of the form-argument layer of `shenfun`
(`src/shenfun/forms/arguments.py`): the `Expr` term algebra over
`BasisFunction` arguments, with its construction invariant, arithmetic
operators (`+`, `-`, `*`, in-place variants, negation) and component
extraction.

Tensors are embedded as nested lists: `terms : List (List (List Int))`
of shape (C, T, D), `scales : List (List ℚ)` and
`indices : List (List Int)` of shape (C, T).  Scales are numeric
multipliers; we use `ℚ` for exact arithmetic.  Python `assert` failures
and raised exceptions are modelled by `Except ExprError`.
-/

set_option autoImplicit false

namespace Shenfun

/-- Modelled from the spec: the function space is an external entity
(not part of the inspected sources).  It exposes the number of spatial
dimensions (`ndim()`), the number of vector components
(`num_components()`) and identity-based equality; `sid` stands for the
object identity distinguishing two distinct spaces with equal
parameters. -/
structure FunctionSpace where
  sid : Nat
  ndim : Nat
  num_components : Nat
deriving DecidableEq, Repr

/-- Modelled from the spec: `rank = 2 if C > 1 else 1` (spec §3,
invariant (c): rank is derived from the component count, never stored). -/
def FunctionSpace.rank (s : FunctionSpace) : Nat :=
  if 1 < s.num_components then 2 else 1

/-- Modelled from the spec: `space[i]` returns the i-th scalar sub-space
of a vector space (spec §4.1).  The sub-space is scalar (one component)
over the same spatial dimensions; its identity is some fresh value. -/
def FunctionSpace.getComp (s : FunctionSpace) (i : Nat) : FunctionSpace :=
  ⟨s.sid + i + 1, s.ndim, 1⟩

/-- `BasisFunction(space, argument, index)`: space reference, argument
role (0 = test, 1 = trial, 2 = value) and vector-component index. -/
structure BasisFunction where
  space : FunctionSpace
  argument : Nat
  index : Nat
deriving DecidableEq, Repr

/-- `BasisFunction.rank`: returns `self._space.rank()`. -/
def BasisFunction.rank (b : BasisFunction) : Nat :=
  b.space.rank

/-- Errors of the layer.  Python raises `AssertionError` for the shape
invariant, operand-compatibility and operand-type asserts (classified by
the spec as shape-consistency, incompatible-operand and
unsupported-operand errors), `IndexError` for out-of-range component
access, `NotImplementedError` for an unknown multiply operand on a
rank-2 Expr, and `RuntimeError` for in-place arithmetic on a bare
BasisFunction. -/
inductive ExprError where
  | shapeError
  | incompatibleOperand
  | unsupportedOperand
  | notImplemented
  | componentIndexError
  | runtimeError
deriving DecidableEq, Repr

/-- A Python value appearing as a multiplication operand: a number, a
tuple, or anything else. -/
inductive PyVal where
  | num : ℚ → PyVal
  | tup : List PyVal → PyVal
  | other : PyVal

/-- `isinstance(a, Number)` for a `PyVal`. -/
def PyVal.isNum : PyVal → Bool
  | .num _ => true
  | _ => false

/-- `Expr`: basis plus the three parallel tensors `_terms` (C, T, D),
`_scales` (C, T) and `_indices` (C, T). -/
structure Expr where
  basis : BasisFunction
  terms : List (List (List Int))
  scales : List (List ℚ)
  indices : List (List Int)
deriving DecidableEq, Repr

/-- Total element count of a 2-d tensor, `np.prod(x.shape)` for a
rectangular array. -/
def flatSize {α : Type} (x : List (List α)) : Nat :=
  (x.map List.length).sum

/-- `Expr.num_components`: `self._terms.shape[0]`. -/
def Expr.num_components (e : Expr) : Nat :=
  e.terms.length

/-- `Expr.num_terms`: `self._terms.shape[1]` (length of a row of the
rectangular terms tensor). -/
def Expr.num_terms (e : Expr) : Nat :=
  (e.terms.headD []).length

/-- `Expr.dim`: `self._terms.shape[2]`. -/
def Expr.dim (e : Expr) : Nat :=
  ((e.terms.headD []).headD []).length

/-- `Expr.expr_rank`: `1 if self._terms.shape[0] == 1 else 2`. -/
def Expr.expr_rank (e : Expr) : Nat :=
  if e.num_components = 1 then 1 else 2

/-- `Expr.rank`: `self._basis.rank()`. -/
def Expr.rank (e : Expr) : Nat :=
  e.basis.rank

/-- `Expr.__init__(basis, terms=None, scales=None, indices=None)`:
missing tensors default to the one-term identity over the basis's
space (`terms` all zero of shape (C, 1, ndim), `scales` all one of
shape (C, 1), `indices = arange(C)[:, newaxis]`), then the constructor
asserts `np.prod(self._scales.shape) == self.num_terms()*self.num_components()`. -/
def Expr.init (b : BasisFunction) (t? : Option (List (List (List Int))))
    (s? : Option (List (List ℚ))) (ix? : Option (List (List Int))) :
    Except ExprError Expr :=
  let C := b.space.num_components
  let D := b.space.ndim
  let t := t?.getD (List.replicate C (List.replicate 1 (List.replicate D 0)))
  let s := s?.getD (List.replicate C [(1 : ℚ)])
  let ix := ix?.getD ((List.range C).map (fun i => [(i : Int)]))
  let e : Expr := ⟨b, t, s, ix⟩
  if flatSize e.scales = e.num_terms * e.num_components then .ok e
  else .error .shapeError

/-- Well-formedness of the tensors of an `Expr` as numpy arrays of
shapes (C, T, D), (C, T), (C, T) with C ≥ 1: what holds of every Expr
produced through the Python API. -/
def Expr.WF (e : Expr) : Prop :=
  0 < e.terms.length ∧
  (∀ r ∈ e.terms, r.length = e.num_terms) ∧
  (∀ r ∈ e.terms, ∀ v ∈ r, v.length = e.dim) ∧
  e.scales.length = e.terms.length ∧
  (∀ r ∈ e.scales, r.length = e.num_terms) ∧
  e.indices.length = e.terms.length ∧
  (∀ r ∈ e.indices, r.length = e.num_terms)

instance (e : Expr) : Decidable e.WF := by
  unfold Expr.WF; infer_instance

/-- `BasisFunction.__getitem__(i)`: asserts `rank() == 2`, then returns
the same-kind basis bound to `space[i]` with index i.  The range check
on i is the external space's indexing, modelled from the spec
(ComponentIndexError for an index out of range). -/
def BasisFunction.getItem (b : BasisFunction) (i : Nat) :
    Except ExprError BasisFunction :=
  if b.rank = 2 then
    if i < b.space.num_components then
      .ok ⟨b.space.getComp i, b.argument, i⟩
    else .error .componentIndexError
  else .error .componentIndexError

/-- `Expr.__getitem__(i)`: rebinds the basis to component i only when
`self.rank() == 2`, then slices row i of each tensor (numpy raises
IndexError when i is out of range) and rebuilds through the
constructor. -/
def Expr.getItem (e : Expr) (i : Nat) : Except ExprError Expr :=
  match (if e.rank = 2 then e.basis.getItem i else .ok e.basis) with
  | .error err => .error err
  | .ok b =>
    match e.terms[i]?, e.scales[i]?, e.indices[i]? with
    | some t, some s, some ix => Expr.init b (some [t]) (some [s]) (some [ix])
    | _, _, _ => .error .componentIndexError

/-- The loop `for i in range(self.dim()): sc[i] = sc[i]*a[i]` of
`Expr.__mul__`/`__imul__` on a rank-2 Expr, after
`assert len(a) == self.dim()`: modelled as lockstep structural recursion
over the dim()-length tuple.  Each iteration first asserts
`isinstance(a[i], Number)`, then reads scale row i — an IndexError when
the scales tensor has fewer than dim() rows; rows beyond the tuple
length are left untouched. -/
def tupMulLoop : List (List ℚ) → List PyVal → Except ExprError (List (List ℚ))
  | sc, [] => .ok sc
  | sc, v :: vs =>
    match v with
    | .num q =>
      match sc with
      | [] => .error .componentIndexError
      | row :: rest => do
        let rest2 ← tupMulLoop rest vs
        .ok ((row.map (fun x => x * q)) :: rest2)
    | _ => .error .unsupportedOperand

/-- The scale computation shared by `Expr.__mul__` and `Expr.__imul__`:
rank-1 requires a numeric operand (`assert isinstance(a, Number)`) and
multiplies every scale; rank-2 accepts a tuple of length dim() (scaled
row by row through `tupMulLoop`) or a number (uniform scaling) and
raises NotImplementedError otherwise. -/
def Expr.mulScalesCalc (e : Expr) (a : PyVal) :
    Except ExprError (List (List ℚ)) :=
  if e.expr_rank = 1 then
    match a with
    | .num q => .ok (e.scales.map (fun r => r.map (fun x => x * q)))
    | _ => .error .unsupportedOperand
  else
    match a with
    | .tup l =>
      if l.length = e.dim then tupMulLoop e.scales l
      else .error .unsupportedOperand
    | .num q => .ok (e.scales.map (fun r => r.map (fun x => x * q)))
    | .other => .error .notImplemented

/-- `Expr.__mul__(a)`: computes the new scales on a copy and returns
`Expr(self._basis, self._terms.copy(), sc, self._indices.copy())`
(a fresh Expr built through the checked constructor). -/
def Expr.mul (e : Expr) (a : PyVal) : Except ExprError Expr := do
  let sc ← e.mulScalesCalc a
  Expr.init e.basis (some e.terms) (some sc) (some e.indices)

/-- `Expr.__imul__(a)`: same scale computation applied to the live
`_scales` tensor; returns `self` without re-running the constructor.
This gives the updated value of the receiver. -/
def Expr.imulData (e : Expr) (a : PyVal) : Except ExprError Expr := do
  let sc ← e.mulScalesCalc a
  .ok { e with scales := sc }

/-- The right operand of `+`/`-` and their in-place variants: an `Expr`
or a `BasisFunction`. -/
inductive Operand where
  | expr : Expr → Operand
  | basis : BasisFunction → Operand
deriving DecidableEq, Repr

/-- `if not isinstance(a, Expr): a = Expr(a)` — a bare BasisFunction is
lifted to the one-term identity Expr. -/
def Operand.lift : Operand → Except ExprError Expr
  | .expr e => .ok e
  | .basis b => Expr.init b none none none

/-- The three compatibility asserts repeated by each of `__add__`,
`__iadd__`, `__sub__`, `__isub__`, in source order:
`assert self.num_components() == a.num_components()`,
`assert self.function_space() == a.function_space()`,
`assert self.argument() == a.argument()`. -/
def Expr.addCheck (e a : Expr) : Except ExprError Unit :=
  if e.num_components ≠ a.num_components then .error .incompatibleOperand
  else if e.basis.space ≠ a.basis.space then .error .incompatibleOperand
  else if e.basis.argument ≠ a.basis.argument then .error .incompatibleOperand
  else .ok ()

/-- `np.concatenate((x, y), axis=1)` for two tensors with equal leading
dimension: rows are appended pairwise. -/
def concatAx1 {α : Type} (x y : List (List α)) : List (List α) :=
  List.zipWith (fun r s => r ++ s) x y

/-- Elementwise negation of a scales tensor, `-x` on a numpy array
(always a fresh array). -/
def negT2 (x : List (List ℚ)) : List (List ℚ) :=
  x.map (fun r => r.map (fun v => -v))

/-- `Expr.__add__(a)`: lift, compatibility asserts, then a new Expr
built through the checked constructor from the tensors concatenated
along the term axis. -/
def Expr.addOp (e : Expr) (x : Operand) : Except ExprError Expr := do
  let a ← x.lift
  let _ ← e.addCheck a
  Expr.init e.basis (some (concatAx1 e.terms a.terms))
    (some (concatAx1 e.scales a.scales))
    (some (concatAx1 e.indices a.indices))

/-- `Expr.__iadd__(a)`: same checks and concatenation, but the three
tensors of the receiver are reassigned directly (no constructor
re-validation) and `self` is returned.  This gives the updated value of
the receiver. -/
def Expr.iaddOp (e : Expr) (x : Operand) : Except ExprError Expr := do
  let a ← x.lift
  let _ ← e.addCheck a
  .ok { e with terms := concatAx1 e.terms a.terms,
               scales := concatAx1 e.scales a.scales,
               indices := concatAx1 e.indices a.indices }

/-- `Expr.__sub__(a)`: as `__add__` but the right operand's scales are
negated (`-a.scales()`, a fresh array) before concatenation. -/
def Expr.subOp (e : Expr) (x : Operand) : Except ExprError Expr := do
  let a ← x.lift
  let _ ← e.addCheck a
  Expr.init e.basis (some (concatAx1 e.terms a.terms))
    (some (concatAx1 e.scales (negT2 a.scales)))
    (some (concatAx1 e.indices a.indices))

/-- `Expr.__isub__(a)`: in-place variant of `__sub__`. -/
def Expr.isubOp (e : Expr) (x : Operand) : Except ExprError Expr := do
  let a ← x.lift
  let _ ← e.addCheck a
  .ok { e with terms := concatAx1 e.terms a.terms,
               scales := concatAx1 e.scales (negT2 a.scales),
               indices := concatAx1 e.indices a.indices }

/-- `Expr.__neg__()`: a new Expr through the checked constructor with
copied terms and indices and negated scales. -/
def Expr.negOp (e : Expr) : Except ExprError Expr :=
  Expr.init e.basis (some e.terms) (some (negT2 e.scales)) (some e.indices)

/-! ### A small heap, to state object identity and frame effects

Python objects live on a heap; non-in-place operators allocate a new
`Expr` object while in-place operators update the receiver's fields.
References are indices into an allocation list. -/

/-- The object heap: allocated `Expr` objects in allocation order. -/
abbrev Heap : Type := List Expr

/-- An object reference: index into the heap. -/
abbrev Ref : Type := Nat

/-- Dereference. -/
def Heap.getRef (h : Heap) (r : Ref) : Option Expr :=
  h[r]?

/-- Allocation: the new object is appended, its reference is the old
heap size. -/
def Heap.alloc (h : Heap) (e : Expr) : Heap × Ref :=
  (h ++ [e], h.length)

/-- Field update of the object at `r`. -/
def Heap.setRef (h : Heap) (r : Ref) (e : Expr) : Heap :=
  h.set r e

/-- `e * a` as a heap operation: the receiver is read, the result is a
freshly allocated Expr. -/
def mulRef (h : Heap) (r : Ref) (a : PyVal) : Except ExprError (Heap × Ref) :=
  match h.getRef r with
  | some e => (e.mul a).map (fun e2 => h.alloc e2)
  | none => .error .runtimeError

/-- `e *= a` as a heap operation: the receiver's `_scales` field is
updated in place and the same reference is returned. -/
def imulRef (h : Heap) (r : Ref) (a : PyVal) : Except ExprError (Heap × Ref) :=
  match h.getRef r with
  | some e => (e.imulData a).map (fun e2 => (h.setRef r e2, r))
  | none => .error .runtimeError

/-- `e1 + e2` as a heap operation: both operands read, result freshly
allocated. -/
def addRef (h : Heap) (r1 r2 : Ref) : Except ExprError (Heap × Ref) :=
  match h.getRef r1, h.getRef r2 with
  | some e1, some e2 => (e1.addOp (.expr e2)).map (fun e3 => h.alloc e3)
  | _, _ => .error .runtimeError

/-- `e1 - e2` as a heap operation. -/
def subRef (h : Heap) (r1 r2 : Ref) : Except ExprError (Heap × Ref) :=
  match h.getRef r1, h.getRef r2 with
  | some e1, some e2 => (e1.subOp (.expr e2)).map (fun e3 => h.alloc e3)
  | _, _ => .error .runtimeError

/-- `e1 += e2` as a heap operation: the receiver's fields are updated in
place, the receiver's reference is returned. -/
def iaddRef (h : Heap) (r1 r2 : Ref) : Except ExprError (Heap × Ref) :=
  match h.getRef r1, h.getRef r2 with
  | some e1, some e2 => (e1.iaddOp (.expr e2)).map (fun e3 => (h.setRef r1 e3, r1))
  | _, _ => .error .runtimeError

/-- `e1 -= e2` as a heap operation. -/
def isubRef (h : Heap) (r1 r2 : Ref) : Except ExprError (Heap × Ref) :=
  match h.getRef r1, h.getRef r2 with
  | some e1, some e2 => (e1.isubOp (.expr e2)).map (fun e3 => (h.setRef r1 e3, r1))
  | _, _ => .error .runtimeError

/-- The heap after a heap operation, the given heap when the operation
raised. -/
def resHeap (res : Except ExprError (Heap × Ref)) (h : Heap) : Heap :=
  match res with
  | .ok (h2, _) => h2
  | .error _ => h

/-- The reference returned by a heap operation, the given default when
the operation raised. -/
def resRef (res : Except ExprError (Heap × Ref)) (r : Ref) : Ref :=
  match res with
  | .ok (_, r2) => r2
  | .error _ => r

/-- Whether an operation produced a value rather than raising. -/
def isOkRes (res : Except ExprError Expr) : Bool :=
  match res with
  | .ok _ => true
  | .error _ => false

instance exceptDecEq {ε α : Type} [DecidableEq ε] [DecidableEq α] :
    DecidableEq (Except ε α) := fun x y =>
  match x, y with
  | .ok a, .ok b =>
    match decEq a b with
    | .isTrue h => .isTrue (h ▸ rfl)
    | .isFalse h => .isFalse (fun hc => h (by injection hc))
  | .error a, .error b =>
    match decEq a b with
    | .isTrue h => .isTrue (h ▸ rfl)
    | .isFalse h => .isFalse (fun hc => h (by injection hc))
  | .ok _, .error _ => .isFalse (fun hc => Except.noConfusion hc)
  | .error _, .ok _ => .isFalse (fun hc => Except.noConfusion hc)

/-! ### Helper lemmas -/

theorem flatSize_nil {α : Type} : flatSize ([] : List (List α)) = 0 := rfl

theorem flatSize_cons {α : Type} (r : List α) (x : List (List α)) :
    flatSize (r :: x) = r.length + flatSize x := by
  simp [flatSize]

theorem flatSize_const {α : Type} (x : List (List α)) (n : Nat)
    (h : ∀ r ∈ x, r.length = n) : flatSize x = x.length * n := by
  induction x with
  | nil => simp [flatSize]
  | cons r t ih =>
    have hr := h r (by simp)
    have ht := ih (fun s hs => h s (by simp [hs]))
    simp only [flatSize_cons, ht, hr, List.length_cons]
    ring

theorem flatSize_map_map (f : ℚ → ℚ) (x : List (List ℚ)) :
    flatSize (x.map (fun r => r.map f)) = flatSize x := by
  induction x with
  | nil => rfl
  | cons r t ih => simp [flatSize_cons, ih]

theorem concatAx1_cons {α : Type} (r s : List α) (t u : List (List α)) :
    concatAx1 (r :: t) (s :: u) = (r ++ s) :: concatAx1 t u := rfl

theorem flatSize_concatAx1 {α : Type} (x y : List (List α))
    (h : x.length = y.length) :
    flatSize (concatAx1 x y) = flatSize x + flatSize y := by
  induction x generalizing y with
  | nil =>
    cases y with
    | nil => rfl
    | cons s ys => simp at h
  | cons r t ih =>
    cases y with
    | nil => simp at h
    | cons s ys =>
      have h2 := ih ys (by simpa using h)
      simp only [concatAx1_cons, flatSize_cons, List.length_append, h2]
      omega

/-- The checked constructor with all three tensors given: the only check
is on the flat size of the scales tensor. -/
theorem Expr.init_some (b : BasisFunction) (t : List (List (List Int)))
    (s : List (List ℚ)) (ix : List (List Int)) :
    Expr.init b (some t) (some s) (some ix) =
      if flatSize s = (Expr.mk b t s ix).num_terms * (Expr.mk b t s ix).num_components
      then .ok ⟨b, t, s, ix⟩ else .error .shapeError := rfl

/-! ### Claims -/

/-- C1 (amended): the constructor validates only
`size(scales) == T * C`; a construction whose scales size differs fails
with the shape-consistency error, but the size of the indices tensor is
not validated — construction succeeds or fails independently of the
indices argument. -/
theorem c1_init_checks_scales_only (b : BasisFunction)
    (t : List (List (List Int))) (s : List (List ℚ))
    (ix ix' : List (List Int)) :
    (isOkRes (Expr.init b (some t) (some s) (some ix)) = true ↔
      flatSize s = (Expr.mk b t s ix).num_terms * (Expr.mk b t s ix).num_components) ∧
    (¬ flatSize s = (Expr.mk b t s ix).num_terms * (Expr.mk b t s ix).num_components →
      Expr.init b (some t) (some s) (some ix) = .error .shapeError) ∧
    isOkRes (Expr.init b (some t) (some s) (some ix)) =
      isOkRes (Expr.init b (some t) (some s) (some ix')) := by
  rw [Expr.init_some b t s ix, Expr.init_some b t s ix']
  simp only [Expr.num_terms, Expr.num_components, List.headD_eq_head?]
  by_cases h : flatSize s = (t.head?.getD []).length * t.length
  · simp [h, isOkRes]
  · rw [if_neg h, if_neg h]
    simp [isOkRes]
    exact h

/-- C1 counterexample: a construction whose indices tensor has the
wrong size (2 elements where `T * C = 1`) succeeds instead of failing
with a shape-consistency error. -/
theorem c1_counterexample :
    isOkRes (Expr.init ⟨⟨0, 1, 1⟩, 0, 0⟩ (some [[[0]]]) (some [[1]])
      (some [[0, 5]])) = true ∧
    flatSize [[(0 : Int), 5]] ≠
      (Expr.mk ⟨⟨0, 1, 1⟩, 0, 0⟩ [[[0]]] [[1]] [[0, 5]]).num_terms *
        (Expr.mk ⟨⟨0, 1, 1⟩, 0, 0⟩ [[[0]]] [[1]] [[0, 5]]).num_components := by
  decide

/-- C9: constructing an Expr from a bare BasisFunction (as the
arithmetic operators of BasisFunction do before delegating to Expr's
algebra) yields the one-term identity Expr: terms is the all-zero
tensor of shape (C, 1, D), scales is the all-ones tensor of shape
(C, 1) and indices is the column of component numbers 0..C-1. -/
theorem c9_basis_identity_expr (b : BasisFunction) :
    Expr.init b none none none =
      .ok ⟨b, List.replicate b.space.num_components
              (List.replicate 1 (List.replicate b.space.ndim 0)),
            List.replicate b.space.num_components [(1 : ℚ)],
            (List.range b.space.num_components).map (fun i => [(i : Int)])⟩ := by
  rcases b with ⟨⟨sid, D, C⟩, arg, idx⟩
  cases C with
  | zero => simp [Expr.init, flatSize, Expr.num_terms, Expr.num_components]
  | succ n =>
    simp [Expr.init, flatSize, Expr.num_terms, Expr.num_components,
      List.replicate_succ]
    omega

/-- C2 (amended): component extraction `expr[i]` on a rank-1 (scalar)
Expr does not always fail: `expr[0]` succeeds and returns a
one-component copy with the basis unchanged, and only out-of-range
indices `i ≥ 1` fail with the index error.  On a rank-2 Expr with a
valid index, extraction returns a new Expr bound to the i-th scalar
sub-space whose terms, scales and indices are the i-th slice along the
component axis. -/
theorem c2_getitem_rank (e : Expr) (i : Nat) (hwf : e.WF)
    (hC : e.num_components = e.basis.space.num_components) :
    (e.basis.space.num_components = 1 → i = 0 →
      e.getItem i = .ok ⟨e.basis, [e.terms.headD []], [e.scales.headD []],
        [e.indices.headD []]⟩) ∧
    (e.basis.space.num_components = 1 → 0 < i →
      e.getItem i = .error .componentIndexError) ∧
    (1 < e.basis.space.num_components → i < e.basis.space.num_components →
      e.getItem i = .ok ⟨⟨e.basis.space.getComp i, e.basis.argument, i⟩,
        [e.terms.getD i []], [e.scales.getD i []], [e.indices.getD i []]⟩) := by
  rcases e with ⟨bas, T, S, IX⟩
  dsimp only [Expr.num_components] at hC
  obtain ⟨hpos, hTt, hTd, hSl, hSt, hIl, hIt⟩ := hwf
  dsimp only [Expr.num_terms, Expr.num_components, Expr.dim] at hTt hTd hSl hSt hIl hIt
  refine ⟨?_, ?_, ?_⟩
  · intro h1 h0
    replace h1 : bas.space.num_components = 1 := h1
    subst h0
    have hTl : T.length = 1 := by rw [hC, h1]
    obtain ⟨t0, rfl⟩ := List.length_eq_one.mp hTl
    obtain ⟨s0, rfl⟩ := List.length_eq_one.mp (by simpa using hSl)
    obtain ⟨x0, rfl⟩ := List.length_eq_one.mp (by simpa using hIl)
    have hs0 : s0.length = t0.length := by simpa using hSt s0 (by simp)
    simp [Expr.getItem, Expr.rank, BasisFunction.rank, FunctionSpace.rank, h1,
      Expr.init_some, flatSize, hs0, Expr.num_terms, Expr.num_components]
  · intro h1 hi
    replace h1 : bas.space.num_components = 1 := h1
    have hTl : T.length = 1 := by rw [hC, h1]
    obtain ⟨t0, rfl⟩ := List.length_eq_one.mp hTl
    obtain ⟨n, rfl⟩ := Nat.exists_eq_succ_of_ne_zero (Nat.pos_iff_ne_zero.mp hi)
    simp [Expr.getItem, Expr.rank, BasisFunction.rank, FunctionSpace.rank, h1]
  · intro h2 hi
    replace h2 : 1 < bas.space.num_components := h2
    replace hi : i < bas.space.num_components := hi
    have hrank : FunctionSpace.rank bas.space = 2 := by
      simp [FunctionSpace.rank, h2]
    have hiT : i < T.length := by rw [hC]; exact hi
    have hiS : i < S.length := by rw [hSl]; exact hiT
    have hiI : i < IX.length := by rw [hIl]; exact hiT
    have hsl : S[i].length = T[i].length := by
      rw [hSt S[i] (List.getElem_mem hiS), hTt T[i] (List.getElem_mem hiT)]
    simp only [Expr.getItem, Expr.rank, BasisFunction.rank, hrank, if_pos,
      BasisFunction.getItem, hi, if_true, reduceIte,
      List.getElem?_eq_getElem hiT, List.getElem?_eq_getElem hiS,
      List.getElem?_eq_getElem hiI]
    rw [List.getD_eq_getElem?_getD, List.getElem?_eq_getElem hiT,
      List.getD_eq_getElem?_getD, List.getElem?_eq_getElem hiS,
      List.getD_eq_getElem?_getD, List.getElem?_eq_getElem hiI]
    simp [Expr.init_some, flatSize, Expr.num_terms, Expr.num_components, hsl]

/-- C2 counterexample: on a concrete rank-1 (scalar) Expr, component
extraction at index 0 succeeds and returns an Expr with the same
tensors, where the claim requires every extraction on a rank-1 Expr to
fail with a component-index error. -/
theorem c2_counterexample :
    Expr.getItem ⟨⟨⟨0, 2, 1⟩, 0, 0⟩, [[[0, 0]]], [[1]], [[0]]⟩ 0 =
      .ok ⟨⟨⟨0, 2, 1⟩, 0, 0⟩, [[[0, 0]]], [[1]], [[0]]⟩ := by
  decide

/-- C2 witness: rank-2 extraction at a valid index on a concrete
vector Expr returns the sliced Expr bound to the scalar sub-space. -/
theorem c2_witness :
    Expr.getItem ⟨⟨⟨1, 2, 2⟩, 0, 0⟩, [[[1, 0]], [[0, 1]]], [[1], [1]],
        [[0], [1]]⟩ 1 =
      .ok ⟨⟨⟨3, 2, 1⟩, 0, 1⟩, [[[0, 1]]], [[1]], [[1]]⟩ :=
  (c2_getitem_rank ⟨⟨⟨1, 2, 2⟩, 0, 0⟩, [[[1, 0]], [[0, 1]]], [[1], [1]],
    [[0], [1]]⟩ 1 (by decide) (by decide)).2.2 (by decide) (by decide)

/-! ### Reduction lemmas for the arithmetic operators -/

theorem Expr.addOp_expr (e a : Expr) :
    e.addOp (.expr a) =
      (e.addCheck a >>= fun _ =>
        Expr.init e.basis (some (concatAx1 e.terms a.terms))
          (some (concatAx1 e.scales a.scales))
          (some (concatAx1 e.indices a.indices))) := rfl

theorem Expr.subOp_expr (e a : Expr) :
    e.subOp (.expr a) =
      (e.addCheck a >>= fun _ =>
        Expr.init e.basis (some (concatAx1 e.terms a.terms))
          (some (concatAx1 e.scales (negT2 a.scales)))
          (some (concatAx1 e.indices a.indices))) := rfl

theorem Expr.iaddOp_expr (e a : Expr) :
    e.iaddOp (.expr a) =
      (e.addCheck a >>= fun _ =>
        .ok { e with terms := concatAx1 e.terms a.terms,
                     scales := concatAx1 e.scales a.scales,
                     indices := concatAx1 e.indices a.indices }) := rfl

theorem Expr.isubOp_expr (e a : Expr) :
    e.isubOp (.expr a) =
      (e.addCheck a >>= fun _ =>
        .ok { e with terms := concatAx1 e.terms a.terms,
                     scales := concatAx1 e.scales (negT2 a.scales),
                     indices := concatAx1 e.indices a.indices }) := rfl

theorem bindOk {α β : Type} (x : α) (f : α → Except ExprError β) :
    (Except.ok x >>= f) = f x := rfl

theorem bindErr {α β : Type} (err : ExprError) (f : α → Except ExprError β) :
    ((Except.error err : Except ExprError α) >>= f) = .error err := rfl

theorem Expr.addCheck_ok (e a : Expr) (hc : e.num_components = a.num_components)
    (hs : e.basis.space = a.basis.space)
    (hr : e.basis.argument = a.basis.argument) :
    e.addCheck a = .ok () := by
  simp [Expr.addCheck, hc, hs, hr]

theorem Expr.addCheck_err (e a : Expr)
    (h : e.num_components ≠ a.num_components ∨ e.basis.space ≠ a.basis.space ∨
      e.basis.argument ≠ a.basis.argument) :
    e.addCheck a = .error .incompatibleOperand := by
  unfold Expr.addCheck
  by_cases h1 : e.num_components ≠ a.num_components
  · rw [if_pos h1]
  · rw [if_neg h1]
    by_cases h2 : e.basis.space ≠ a.basis.space
    · rw [if_pos h2]
    · rw [if_neg h2]
      have h3 : e.basis.argument ≠ a.basis.argument := by tauto
      rw [if_pos h3]

/-- C4: when the two operands differ in component count, or in function
space, or in argument role, every addition and subtraction (plain and
in-place) fails with the incompatible-operand error instead of
returning a result. -/
theorem c4_incompatible_operands (e a : Expr)
    (h : e.num_components ≠ a.num_components ∨ e.basis.space ≠ a.basis.space ∨
      e.basis.argument ≠ a.basis.argument) :
    e.addOp (.expr a) = .error .incompatibleOperand ∧
    e.subOp (.expr a) = .error .incompatibleOperand ∧
    e.iaddOp (.expr a) = .error .incompatibleOperand ∧
    e.isubOp (.expr a) = .error .incompatibleOperand := by
  have hchk := Expr.addCheck_err e a h
  exact ⟨by rw [Expr.addOp_expr, hchk, bindErr],
         by rw [Expr.subOp_expr, hchk, bindErr],
         by rw [Expr.iaddOp_expr, hchk, bindErr],
         by rw [Expr.isubOp_expr, hchk, bindErr]⟩

/-- C4 witness: adding a test-role identity Expr to a trial-role
identity Expr over the same scalar space fails in all four operators. -/
theorem c4_witness :
    Expr.addOp ⟨⟨⟨0, 2, 1⟩, 0, 0⟩, [[[0, 0]]], [[1]], [[0]]⟩
        (.expr ⟨⟨⟨0, 2, 1⟩, 1, 0⟩, [[[0, 0]]], [[1]], [[0]]⟩) =
      .error .incompatibleOperand ∧
    Expr.subOp ⟨⟨⟨0, 2, 1⟩, 0, 0⟩, [[[0, 0]]], [[1]], [[0]]⟩
        (.expr ⟨⟨⟨0, 2, 1⟩, 1, 0⟩, [[[0, 0]]], [[1]], [[0]]⟩) =
      .error .incompatibleOperand ∧
    Expr.iaddOp ⟨⟨⟨0, 2, 1⟩, 0, 0⟩, [[[0, 0]]], [[1]], [[0]]⟩
        (.expr ⟨⟨⟨0, 2, 1⟩, 1, 0⟩, [[[0, 0]]], [[1]], [[0]]⟩) =
      .error .incompatibleOperand ∧
    Expr.isubOp ⟨⟨⟨0, 2, 1⟩, 0, 0⟩, [[[0, 0]]], [[1]], [[0]]⟩
        (.expr ⟨⟨⟨0, 2, 1⟩, 1, 0⟩, [[[0, 0]]], [[1]], [[0]]⟩) =
      .error .incompatibleOperand :=
  c4_incompatible_operands ⟨⟨⟨0, 2, 1⟩, 0, 0⟩, [[[0, 0]]], [[1]], [[0]]⟩
    ⟨⟨⟨0, 2, 1⟩, 1, 0⟩, [[[0, 0]]], [[1]], [[0]]⟩ (Or.inr (Or.inr (by decide)))

/-- C3: for compatible Exprs (same space, same argument role, same
component count), `a + b` and `a - b` concatenate terms, scales and
indices along the term axis, subtraction negating the right operand's
scales first and leaving its terms and indices unchanged; the number of
terms of the result is the sum of the operands' term counts. -/
theorem c3_add_sub_structural (a b : Expr) (hwa : a.WF) (hwb : b.WF)
    (hc : a.num_components = b.num_components)
    (hs : a.basis.space = b.basis.space)
    (hr : a.basis.argument = b.basis.argument) :
    a.addOp (.expr b) = .ok ⟨a.basis, concatAx1 a.terms b.terms,
      concatAx1 a.scales b.scales, concatAx1 a.indices b.indices⟩ ∧
    a.subOp (.expr b) = .ok ⟨a.basis, concatAx1 a.terms b.terms,
      concatAx1 a.scales (negT2 b.scales), concatAx1 a.indices b.indices⟩ ∧
    (Expr.mk a.basis (concatAx1 a.terms b.terms) (concatAx1 a.scales b.scales)
      (concatAx1 a.indices b.indices)).num_terms = a.num_terms + b.num_terms := by
  have hchk := Expr.addCheck_ok a b hc hs hr
  rcases a with ⟨ba, TA, SA, XA⟩
  rcases b with ⟨bb, TB, SB, XB⟩
  obtain ⟨hposA, hTtA, hTdA, hSlA, hStA, hIlA, hItA⟩ := hwa
  obtain ⟨hposB, hTtB, hTdB, hSlB, hStB, hIlB, hItB⟩ := hwb
  replace hc : TA.length = TB.length := hc
  cases TA with
  | nil => exact absurd hposA (by simp)
  | cons ta tas =>
  cases TB with
  | nil => exact absurd hposB (by simp)
  | cons tb tbs =>
  have hc2 : tas.length = tbs.length := by simpa using hc
  have hSAlen : SA.length = tas.length + 1 := by simpa using hSlA
  have hSBlen : SB.length = tbs.length + 1 := by simpa using hSlB
  have hfA : flatSize SA = SA.length * ta.length := flatSize_const SA ta.length hStA
  have hfB : flatSize SB = SB.length * tb.length := flatSize_const SB tb.length hStB
  have hls : SA.length = SB.length := by omega
  have hlsn : SA.length = (negT2 SB).length := by simpa [negT2] using hls
  have hcond : flatSize (concatAx1 SA SB) =
      (ta ++ tb).length * ((concatAx1 tas tbs).length + 1) := by
    rw [flatSize_concatAx1 SA SB hls, hfA, hfB, hSAlen, hSBlen,
      List.length_append, concatAx1, List.length_zipWith, ← hc2, min_self]
    ring
  have hcondneg : flatSize (concatAx1 SA (negT2 SB)) =
      (ta ++ tb).length * ((concatAx1 tas tbs).length + 1) := by
    rw [flatSize_concatAx1 SA (negT2 SB) hlsn, negT2, flatSize_map_map, hfA,
      hfB, hSAlen, hSBlen, List.length_append, concatAx1, List.length_zipWith,
      ← hc2, min_self]
    ring
  refine ⟨?_, ?_, ?_⟩
  · rw [Expr.addOp_expr, hchk, bindOk, Expr.init_some]
    split
    · rfl
    · rename_i hfalse
      exact absurd hcond hfalse
  · rw [Expr.subOp_expr, hchk, bindOk, Expr.init_some]
    split
    · rfl
    · rename_i hfalse
      exact absurd hcondneg hfalse
  · show (ta ++ tb).length = ta.length + tb.length
    exact List.length_append ta tb

/-- C3 witness: adding and subtracting a one-term identity Expr to a
concrete two-term Laplacian Expr over the same scalar test space
concatenates the tensors, giving three terms. -/
theorem c3_witness :
    Expr.addOp ⟨⟨⟨0, 2, 1⟩, 0, 0⟩, [[[2, 0], [0, 2]]], [[1, 1]], [[0, 0]]⟩
        (.expr ⟨⟨⟨0, 2, 1⟩, 0, 0⟩, [[[0, 0]]], [[1]], [[0]]⟩) =
      .ok ⟨⟨⟨0, 2, 1⟩, 0, 0⟩, [[[2, 0], [0, 2], [0, 0]]], [[1, 1, 1]],
        [[0, 0, 0]]⟩ ∧
    Expr.subOp ⟨⟨⟨0, 2, 1⟩, 0, 0⟩, [[[2, 0], [0, 2]]], [[1, 1]], [[0, 0]]⟩
        (.expr ⟨⟨⟨0, 2, 1⟩, 0, 0⟩, [[[0, 0]]], [[1]], [[0]]⟩) =
      .ok ⟨⟨⟨0, 2, 1⟩, 0, 0⟩, [[[2, 0], [0, 2], [0, 0]]], [[1, 1, -1]],
        [[0, 0, 0]]⟩ ∧
    (Expr.mk ⟨⟨0, 2, 1⟩, 0, 0⟩ [[[2, 0], [0, 2], [0, 0]]] [[1, 1, 1]]
      [[0, 0, 0]]).num_terms = 2 + 1 :=
  c3_add_sub_structural
    ⟨⟨⟨0, 2, 1⟩, 0, 0⟩, [[[2, 0], [0, 2]]], [[1, 1]], [[0, 0]]⟩
    ⟨⟨⟨0, 2, 1⟩, 0, 0⟩, [[[0, 0]]], [[1]], [[0]]⟩
    (by decide) (by decide) (by decide) (by decide) (by decide)

/-! ### Multiplication lemmas -/

theorem wf_flat (e : Expr) (hwf : e.WF) :
    flatSize e.scales = (e.terms.headD []).length * e.terms.length := by
  obtain ⟨_, _, _, hSl, hSt, _, _⟩ := hwf
  rw [flatSize_const e.scales (e.terms.headD []).length hSt, hSl, mul_comm]

theorem Expr.mul_def (e : Expr) (a : PyVal) :
    e.mul a = (e.mulScalesCalc a >>= fun sc =>
      Expr.init e.basis (some e.terms) (some sc) (some e.indices)) := rfl

theorem Expr.imulData_def (e : Expr) (a : PyVal) :
    e.imulData a = (e.mulScalesCalc a >>= fun sc =>
      .ok { e with scales := sc }) := rfl

/-- A numeric operand multiplies every scale, for either rank. -/
theorem mulScalesCalc_num (e : Expr) (q : ℚ) :
    e.mulScalesCalc (.num q) =
      .ok (e.scales.map (fun r => r.map (fun x => x * q))) := by
  unfold Expr.mulScalesCalc
  by_cases h : e.expr_rank = 1 <;> simp [h]

theorem mulScalesCalc_rank1_nonnum (e : Expr) (a : PyVal)
    (h1 : e.num_components = 1) (hn : a.isNum = false) :
    e.mulScalesCalc a = .error .unsupportedOperand := by
  unfold Expr.mulScalesCalc
  rw [if_pos (by simp [Expr.expr_rank, h1])]
  cases a with
  | num q => simp [PyVal.isNum] at hn
  | tup l => rfl
  | other => rfl

theorem mulScalesCalc_rank2_tup (e : Expr) (vs : List PyVal)
    (h2 : e.num_components ≠ 1) :
    e.mulScalesCalc (.tup vs) =
      if vs.length = e.dim then tupMulLoop e.scales vs
      else .error .unsupportedOperand := by
  unfold Expr.mulScalesCalc
  rw [if_neg (by simp [Expr.expr_rank, h2])]

theorem mulScalesCalc_rank2_other (e : Expr) (h2 : e.num_components ≠ 1) :
    e.mulScalesCalc .other = .error .notImplemented := by
  unfold Expr.mulScalesCalc
  rw [if_neg (by simp [Expr.expr_rank, h2])]

/-- The row-scaling loop on an all-numeric tuple matching the row count
scales row i by tuple element i. -/
theorem tupMulLoop_nums (sc : List (List ℚ)) (l : List ℚ)
    (h : sc.length = l.length) :
    tupMulLoop sc (l.map PyVal.num) =
      .ok (List.zipWith (fun row q => row.map (fun x => x * q)) sc l) := by
  induction l generalizing sc with
  | nil =>
    cases sc with
    | nil => rfl
    | cons r rs => simp at h
  | cons q qs ih =>
    cases sc with
    | nil => simp at h
    | cons row rest =>
      have h2 : rest.length = qs.length := by simpa using h
      simp [tupMulLoop, ih rest h2, bindOk]

/-- The row-scaling loop fails with the operand-type assertion when some
tuple element is not numeric (and the rows do not run out first). -/
theorem tupMulLoop_badelem (sc : List (List ℚ)) (l : List PyVal)
    (hlen : sc.length = l.length) (hbad : ∃ v ∈ l, v.isNum = false) :
    tupMulLoop sc l = .error .unsupportedOperand := by
  induction l generalizing sc with
  | nil =>
    rcases hbad with ⟨v, hv, _⟩
    simp at hv
  | cons v vs ih =>
    cases sc with
    | nil => simp at hlen
    | cons row rest =>
      cases v with
      | num q =>
        have h2 : rest.length = vs.length := by simpa using hlen
        have hbad2 : ∃ w ∈ vs, w.isNum = false := by
          rcases hbad with ⟨w, hw, hwn⟩
          rcases List.mem_cons.mp hw with heq | hmem
          · rw [heq] at hwn
            simp [PyVal.isNum] at hwn
          · exact ⟨w, hmem, hwn⟩
        simp [tupMulLoop, ih rest h2 hbad2, bindErr]
      | tup l2 => rfl
      | other => rfl

theorem flatSize_zipRowMul (sc : List (List ℚ)) (l : List ℚ)
    (h : sc.length = l.length) :
    flatSize (List.zipWith (fun row q => row.map (fun x => x * q)) sc l) =
      flatSize sc := by
  induction sc generalizing l with
  | nil => rfl
  | cons row rest ih =>
    cases l with
    | nil => simp at h
    | cons q qs => simp [flatSize_cons, ih qs (by simpa using h)]

/-- C5: multiplying a rank-1 Expr by a number multiplies every scale by
it, leaving terms and indices unchanged; any non-numeric operand (a
tuple in particular) fails with the unsupported-operand (assertion)
error. -/
theorem c5_rank1_mul (e : Expr) (hwf : e.WF) (h1 : e.num_components = 1) :
    (∀ q : ℚ, e.mul (.num q) =
      .ok ⟨e.basis, e.terms, e.scales.map (fun r => r.map (fun x => x * q)),
        e.indices⟩) ∧
    (∀ a : PyVal, a.isNum = false → e.mul a = .error .unsupportedOperand) := by
  constructor
  · intro q
    rw [Expr.mul_def, mulScalesCalc_num, bindOk, Expr.init_some]
    split
    · rfl
    · rename_i hfalse
      refine absurd ?_ hfalse
      rw [flatSize_map_map]
      exact wf_flat e hwf
  · intro a hn
    rw [Expr.mul_def, mulScalesCalc_rank1_nonnum e a h1 hn, bindErr]

/-- C5 witness: a concrete rank-1 Expr scaled by 3, and the same Expr
multiplied by a tuple failing with the unsupported-operand error. -/
theorem c5_witness :
    Expr.mul ⟨⟨⟨0, 2, 1⟩, 0, 0⟩, [[[2, 0], [0, 2]]], [[1, 1]], [[0, 0]]⟩
        (.num 3) =
      .ok ⟨⟨⟨0, 2, 1⟩, 0, 0⟩, [[[2, 0], [0, 2]]], [[3, 3]], [[0, 0]]⟩ ∧
    Expr.mul ⟨⟨⟨0, 2, 1⟩, 0, 0⟩, [[[2, 0], [0, 2]]], [[1, 1]], [[0, 0]]⟩
        (.tup []) = .error .unsupportedOperand := by
  have H := c5_rank1_mul
    ⟨⟨⟨0, 2, 1⟩, 0, 0⟩, [[[2, 0], [0, 2]]], [[1, 1]], [[0, 0]]⟩
    (by decide) (by decide)
  refine ⟨?_, H.2 (.tup []) rfl⟩
  rw [H.1 3]
  norm_num

/-- C6 counterexample: (i) a rank-2 Expr with 2 components but
`dim() = 3`: an all-numeric tuple of length `dim()` is not accepted but
fails with an index error (the loop runs `dim()` times over only
`num_components()` scale rows); (ii) a tuple of the right length with a
non-numeric element fails with the unsupported-operand assertion, not
with the not-implemented error. -/
theorem c6_counterexample :
    Expr.mul ⟨⟨⟨2, 3, 2⟩, 0, 0⟩, [[[0, 0, 0]], [[0, 0, 0]]], [[1], [1]],
        [[0], [1]]⟩ (.tup [.num 1, .num 1, .num 1]) =
      .error .componentIndexError ∧
    Expr.mul ⟨⟨⟨1, 2, 2⟩, 0, 0⟩, [[[0, 0]], [[0, 0]]], [[1], [1]],
        [[0], [1]]⟩ (.tup [.other, .num 1]) =
      .error .unsupportedOperand := by
  decide

/-- C6 (amended): for a rank-2 Expr whose component count equals its
spatial dimension count (the intended vector layout), multiplication by
a number scales uniformly; by an all-numeric tuple of length dim(),
tuple element i scales component row i; a tuple of any other length, or
of the right length with a non-numeric element, fails with the
unsupported-operand (assertion) error; and any operand that is neither
a number nor a tuple fails with the not-implemented error. -/
theorem c6_rank2_mul (e : Expr) (hwf : e.WF) (h2 : e.num_components ≠ 1)
    (hCD : e.num_components = e.dim) :
    (∀ q : ℚ, e.mul (.num q) =
      .ok ⟨e.basis, e.terms, e.scales.map (fun r => r.map (fun x => x * q)),
        e.indices⟩) ∧
    (∀ l : List ℚ, l.length = e.dim →
      e.mul (.tup (l.map PyVal.num)) =
        .ok ⟨e.basis, e.terms,
          List.zipWith (fun row q => row.map (fun x => x * q)) e.scales l,
          e.indices⟩) ∧
    (∀ vs : List PyVal, vs.length ≠ e.dim →
      e.mul (.tup vs) = .error .unsupportedOperand) ∧
    (∀ vs : List PyVal, vs.length = e.dim → (∃ v ∈ vs, v.isNum = false) →
      e.mul (.tup vs) = .error .unsupportedOperand) ∧
    e.mul .other = .error .notImplemented := by
  have hscLen : e.scales.length = e.dim := by
    obtain ⟨_, _, _, hSl, _, _, _⟩ := hwf
    rw [hSl]
    exact hCD
  refine ⟨?_, ?_, ?_, ?_, ?_⟩
  · intro q
    rw [Expr.mul_def, mulScalesCalc_num, bindOk, Expr.init_some]
    split
    · rfl
    · rename_i hfalse
      refine absurd ?_ hfalse
      rw [flatSize_map_map]
      exact wf_flat e hwf
  · intro l hl
    have hlen : e.scales.length = l.length := by rw [hscLen, hl]
    rw [Expr.mul_def, mulScalesCalc_rank2_tup e _ h2,
      if_pos (by simpa using hl), tupMulLoop_nums e.scales l hlen, bindOk,
      Expr.init_some]
    split
    · rfl
    · rename_i hfalse
      refine absurd ?_ hfalse
      rw [flatSize_zipRowMul e.scales l hlen]
      exact wf_flat e hwf
  · intro vs hvs
    rw [Expr.mul_def, mulScalesCalc_rank2_tup e _ h2, if_neg hvs, bindErr]
  · intro vs hvs hbad
    have hlen : e.scales.length = vs.length := by rw [hscLen, hvs]
    rw [Expr.mul_def, mulScalesCalc_rank2_tup e _ h2, if_pos hvs,
      tupMulLoop_badelem e.scales vs hlen hbad, bindErr]
  · rw [Expr.mul_def, mulScalesCalc_rank2_other e h2, bindErr]

/-- C6 witness: a concrete rank-2 Expr with 2 components in 2
dimensions multiplied by the tuple (2, 3): row 0 is scaled by 2, row 1
by 3; and by a tuple of length 1, failing the arity assertion. -/
theorem c6_witness :
    Expr.mul ⟨⟨⟨1, 2, 2⟩, 0, 0⟩, [[[0, 0]], [[0, 0]]], [[1], [1]],
        [[0], [1]]⟩ (.tup [.num 2, .num 3]) =
      .ok ⟨⟨⟨1, 2, 2⟩, 0, 0⟩, [[[0, 0]], [[0, 0]]], [[2], [3]],
        [[0], [1]]⟩ ∧
    Expr.mul ⟨⟨⟨1, 2, 2⟩, 0, 0⟩, [[[0, 0]], [[0, 0]]], [[1], [1]],
        [[0], [1]]⟩ (.tup [.num 2]) = .error .unsupportedOperand := by
  have H := c6_rank2_mul
    ⟨⟨⟨1, 2, 2⟩, 0, 0⟩, [[[0, 0]], [[0, 0]]], [[1], [1]], [[0], [1]]⟩
    (by decide) (by decide) (by decide)
  have h2 := H.2.1 [2, 3] (by decide)
  norm_num at h2
  exact ⟨h2, H.2.2.1 [.num 2] (by decide)⟩

/-- C8: negation returns a new Expr with every scale negated and terms
and indices unchanged, and double negation restores the original Expr
exactly. -/
theorem c8_double_neg (e : Expr) (hwf : e.WF) :
    e.negOp = .ok ⟨e.basis, e.terms, negT2 e.scales, e.indices⟩ ∧
    (e.negOp >>= Expr.negOp) = .ok e := by
  have h1 : e.negOp = .ok ⟨e.basis, e.terms, negT2 e.scales, e.indices⟩ := by
    rw [Expr.negOp, Expr.init_some]
    split
    · rfl
    · rename_i hfalse
      refine absurd ?_ hfalse
      rw [negT2, flatSize_map_map]
      exact wf_flat e hwf
  refine ⟨h1, ?_⟩
  rw [h1, bindOk, Expr.negOp, Expr.init_some]
  split
  · have hnn : negT2 (negT2 e.scales) = e.scales := by
      simp [negT2, List.map_map, Function.comp_def]
    rw [hnn]
  · rename_i hfalse
    refine absurd ?_ hfalse
    rw [negT2, flatSize_map_map, negT2, flatSize_map_map]
    exact wf_flat e hwf

/-- C8 witness: negating a concrete two-term Expr flips the sign of
each scale, and negating twice gives back the very same Expr. -/
theorem c8_witness :
    Expr.negOp ⟨⟨⟨0, 2, 1⟩, 0, 0⟩, [[[2, 0], [0, 2]]], [[1, 1]], [[0, 0]]⟩ =
      .ok ⟨⟨⟨0, 2, 1⟩, 0, 0⟩, [[[2, 0], [0, 2]]], [[-1, -1]], [[0, 0]]⟩ ∧
    (Expr.negOp ⟨⟨⟨0, 2, 1⟩, 0, 0⟩, [[[2, 0], [0, 2]]], [[1, 1]], [[0, 0]]⟩ >>=
        Expr.negOp) =
      .ok ⟨⟨⟨0, 2, 1⟩, 0, 0⟩, [[[2, 0], [0, 2]]], [[1, 1]], [[0, 0]]⟩ := by
  have H := c8_double_neg
    ⟨⟨⟨0, 2, 1⟩, 0, 0⟩, [[[2, 0], [0, 2]]], [[1, 1]], [[0, 0]]⟩ (by decide)
  refine ⟨?_, H.2⟩
  rw [H.1]
  decide

/-! ### Heap-level frame lemmas -/

theorem mapOk {α β : Type} (f : α → β) (x : α) :
    (Except.ok x : Except ExprError α).map f = .ok (f x) := rfl

theorem mapErr {α β : Type} (f : α → β) (err : ExprError) :
    (Except.error err : Except ExprError α).map f = .error err := rfl

theorem resHeap_alloc_frame (h : Heap) (res : Except ExprError Expr)
    (r : Ref) (e : Expr) (hre : h.getRef r = some e) :
    Heap.getRef (resHeap (res.map (fun e3 => h.alloc e3)) h) r = some e := by
  cases res with
  | error err => exact hre
  | ok e3 =>
    have hlt : r < h.length := (List.getElem?_eq_some_iff.mp hre).1
    show (h ++ [e3])[r]? = some e
    rw [List.getElem?_append, if_pos hlt]
    exact hre

theorem resHeap_set_frame (h : Heap) (res : Except ExprError Expr)
    (r1 r2 : Ref) (e : Expr) (hne : r1 ≠ r2) (hre : h.getRef r2 = some e) :
    Heap.getRef (resHeap (res.map (fun e3 => (h.setRef r1 e3, r1))) h) r2 =
      some e := by
  cases res with
  | error err => exact hre
  | ok e3 =>
    show (h.set r1 e3)[r2]? = some e
    rw [List.getElem?_set_ne hne]
    exact hre

theorem resRef_set (res : Except ExprError Expr) (h : Heap) (r1 : Ref) :
    resRef (res.map (fun e3 => (h.setRef r1 e3, r1))) r1 = r1 := by
  cases res <;> rfl

/-- C7: for a valid multiplication, `e * a` allocates a fresh Expr (a
reference distinct from the receiver's) whose terms and indices equal
the receiver's, leaving the object at the receiver's reference
unchanged; `e *= a` updates the receiver's scales tensor in place,
keeps its terms and indices, and returns the very same reference. -/
theorem c7_mul_inplace_frame (h : Heap) (r : Ref) (a : PyVal) (e e2 : Expr)
    (hr : h.getRef r = some e) (hm : e.mul a = .ok e2) :
    mulRef h r a = .ok (h ++ [e2], h.length) ∧
    r ≠ h.length ∧
    Heap.getRef (h ++ [e2]) r = some e ∧
    e2.terms = e.terms ∧ e2.indices = e.indices ∧
    imulRef h r a = .ok (Heap.setRef h r ⟨e.basis, e.terms, e2.scales,
      e.indices⟩, r) := by
  have key : e2.terms = e.terms ∧ e2.indices = e.indices ∧
      e.imulData a = .ok ⟨e.basis, e.terms, e2.scales, e.indices⟩ := by
    cases hcalc : e.mulScalesCalc a with
    | error err =>
      rw [Expr.mul_def, hcalc, bindErr] at hm
      exact absurd hm (by simp)
    | ok sc =>
      rw [Expr.mul_def, hcalc, bindOk, Expr.init_some] at hm
      split at hm
      · injection hm with hE
        subst hE
        exact ⟨rfl, rfl, by rw [Expr.imulData_def, hcalc, bindOk]⟩
      · exact absurd hm (by simp)
  obtain ⟨ht, hx, himul⟩ := key
  have hlt : r < h.length := (List.getElem?_eq_some_iff.mp hr).1
  have hmulE : mulRef h r a = (e.mul a).map (fun x => h.alloc x) := by
    unfold mulRef
    rw [hr]
  have himulE : imulRef h r a = (e.imulData a).map (fun x => (h.setRef r x, r)) := by
    unfold imulRef
    rw [hr]
  refine ⟨?_, Nat.ne_of_lt hlt, ?_, ht, hx, ?_⟩
  · rw [hmulE, hm, mapOk]
    rfl
  · show (h ++ [e2])[r]? = some e
    rw [List.getElem?_append, if_pos hlt]
    exact hr
  · rw [himulE, himul, mapOk]

/-- C7 witness: in a one-object heap, multiplying the scalar identity
Expr by 2 allocates the scaled copy at a fresh reference and leaves the
original object unchanged, while in-place multiply overwrites the
object's scales and returns reference 0. -/
theorem c7_witness :
    mulRef [⟨⟨⟨0, 2, 1⟩, 0, 0⟩, [[[0, 0]]], [[1]], [[0]]⟩] 0 (.num 2) =
      .ok ([⟨⟨⟨0, 2, 1⟩, 0, 0⟩, [[[0, 0]]], [[1]], [[0]]⟩,
        ⟨⟨⟨0, 2, 1⟩, 0, 0⟩, [[[0, 0]]], [[2]], [[0]]⟩], 1) ∧
    (0 : Ref) ≠ 1 ∧
    Heap.getRef [⟨⟨⟨0, 2, 1⟩, 0, 0⟩, [[[0, 0]]], [[1]], [[0]]⟩,
        ⟨⟨⟨0, 2, 1⟩, 0, 0⟩, [[[0, 0]]], [[2]], [[0]]⟩] 0 =
      some ⟨⟨⟨0, 2, 1⟩, 0, 0⟩, [[[0, 0]]], [[1]], [[0]]⟩ ∧
    ([[[(0 : Int), 0]]] : List (List (List Int))) = [[[0, 0]]] ∧
    ([[(0 : Int)]] : List (List Int)) = [[0]] ∧
    imulRef [⟨⟨⟨0, 2, 1⟩, 0, 0⟩, [[[0, 0]]], [[1]], [[0]]⟩] 0 (.num 2) =
      .ok ([⟨⟨⟨0, 2, 1⟩, 0, 0⟩, [[[0, 0]]], [[2]], [[0]]⟩], 0) := by
  have hm : (⟨⟨⟨0, 2, 1⟩, 0, 0⟩, [[[0, 0]]], [[1]], [[0]]⟩ : Expr).mul
      (.num 2) = .ok ⟨⟨⟨0, 2, 1⟩, 0, 0⟩, [[[0, 0]]], [[2]], [[0]]⟩ := by
    rw [Expr.mul_def, mulScalesCalc_num, bindOk, Expr.init_some]
    norm_num [flatSize, Expr.num_terms, Expr.num_components]
  exact c7_mul_inplace_frame [⟨⟨⟨0, 2, 1⟩, 0, 0⟩, [[[0, 0]]], [[1]], [[0]]⟩]
    0 (.num 2) ⟨⟨⟨0, 2, 1⟩, 0, 0⟩, [[[0, 0]]], [[1]], [[0]]⟩
    ⟨⟨⟨0, 2, 1⟩, 0, 0⟩, [[[0, 0]]], [[2]], [[0]]⟩ rfl hm

/-- C10: addition and subtraction, plain and in-place, never change the
object the right operand refers to (subtraction negates a fresh copy of
its scales); the plain variants also leave the receiver's object
unchanged, and the in-place variants return the receiver's own
reference. -/
theorem c10_operand_frame (h : Heap) (r1 r2 : Ref) (e1 e2 : Expr)
    (hne : r1 ≠ r2) (h1 : h.getRef r1 = some e1)
    (h2 : h.getRef r2 = some e2) :
    Heap.getRef (resHeap (addRef h r1 r2) h) r1 = some e1 ∧
    Heap.getRef (resHeap (addRef h r1 r2) h) r2 = some e2 ∧
    Heap.getRef (resHeap (subRef h r1 r2) h) r1 = some e1 ∧
    Heap.getRef (resHeap (subRef h r1 r2) h) r2 = some e2 ∧
    Heap.getRef (resHeap (iaddRef h r1 r2) h) r2 = some e2 ∧
    resRef (iaddRef h r1 r2) r1 = r1 ∧
    Heap.getRef (resHeap (isubRef h r1 r2) h) r2 = some e2 ∧
    resRef (isubRef h r1 r2) r1 = r1 := by
  have haddE : addRef h r1 r2 = (e1.addOp (.expr e2)).map (fun e3 => h.alloc e3) := by
    unfold addRef
    rw [h1, h2]
  have hsubE : subRef h r1 r2 = (e1.subOp (.expr e2)).map (fun e3 => h.alloc e3) := by
    unfold subRef
    rw [h1, h2]
  have hiaddE : iaddRef h r1 r2 =
      (e1.iaddOp (.expr e2)).map (fun e3 => (h.setRef r1 e3, r1)) := by
    unfold iaddRef
    rw [h1, h2]
  have hisubE : isubRef h r1 r2 =
      (e1.isubOp (.expr e2)).map (fun e3 => (h.setRef r1 e3, r1)) := by
    unfold isubRef
    rw [h1, h2]
  refine ⟨?_, ?_, ?_, ?_, ?_, ?_, ?_, ?_⟩
  · rw [haddE]
    exact resHeap_alloc_frame h _ r1 e1 h1
  · rw [haddE]
    exact resHeap_alloc_frame h _ r2 e2 h2
  · rw [hsubE]
    exact resHeap_alloc_frame h _ r1 e1 h1
  · rw [hsubE]
    exact resHeap_alloc_frame h _ r2 e2 h2
  · rw [hiaddE]
    exact resHeap_set_frame h _ r1 r2 e2 hne h2
  · rw [hiaddE]
    exact resRef_set _ h r1
  · rw [hisubE]
    exact resHeap_set_frame h _ r1 r2 e2 hne h2
  · rw [hisubE]
    exact resRef_set _ h r1

/-- C10 witness: in a two-object heap holding a two-term Expr and the
identity Expr over the same space, all four operators leave the right
operand's object (and, for the plain ones, the receiver's) unchanged,
and the in-place ones return reference 0. -/
theorem c10_witness :
    Heap.getRef (resHeap (addRef [⟨⟨⟨0, 2, 1⟩, 0, 0⟩, [[[2, 0], [0, 2]]],
        [[1, 1]], [[0, 0]]⟩, ⟨⟨⟨0, 2, 1⟩, 0, 0⟩, [[[0, 0]]], [[1]], [[0]]⟩]
        0 1) [⟨⟨⟨0, 2, 1⟩, 0, 0⟩, [[[2, 0], [0, 2]]], [[1, 1]], [[0, 0]]⟩,
        ⟨⟨⟨0, 2, 1⟩, 0, 0⟩, [[[0, 0]]], [[1]], [[0]]⟩]) 0 =
      some ⟨⟨⟨0, 2, 1⟩, 0, 0⟩, [[[2, 0], [0, 2]]], [[1, 1]], [[0, 0]]⟩ ∧
    Heap.getRef (resHeap (addRef [⟨⟨⟨0, 2, 1⟩, 0, 0⟩, [[[2, 0], [0, 2]]],
        [[1, 1]], [[0, 0]]⟩, ⟨⟨⟨0, 2, 1⟩, 0, 0⟩, [[[0, 0]]], [[1]], [[0]]⟩]
        0 1) [⟨⟨⟨0, 2, 1⟩, 0, 0⟩, [[[2, 0], [0, 2]]], [[1, 1]], [[0, 0]]⟩,
        ⟨⟨⟨0, 2, 1⟩, 0, 0⟩, [[[0, 0]]], [[1]], [[0]]⟩]) 1 =
      some ⟨⟨⟨0, 2, 1⟩, 0, 0⟩, [[[0, 0]]], [[1]], [[0]]⟩ ∧
    Heap.getRef (resHeap (subRef [⟨⟨⟨0, 2, 1⟩, 0, 0⟩, [[[2, 0], [0, 2]]],
        [[1, 1]], [[0, 0]]⟩, ⟨⟨⟨0, 2, 1⟩, 0, 0⟩, [[[0, 0]]], [[1]], [[0]]⟩]
        0 1) [⟨⟨⟨0, 2, 1⟩, 0, 0⟩, [[[2, 0], [0, 2]]], [[1, 1]], [[0, 0]]⟩,
        ⟨⟨⟨0, 2, 1⟩, 0, 0⟩, [[[0, 0]]], [[1]], [[0]]⟩]) 0 =
      some ⟨⟨⟨0, 2, 1⟩, 0, 0⟩, [[[2, 0], [0, 2]]], [[1, 1]], [[0, 0]]⟩ ∧
    Heap.getRef (resHeap (subRef [⟨⟨⟨0, 2, 1⟩, 0, 0⟩, [[[2, 0], [0, 2]]],
        [[1, 1]], [[0, 0]]⟩, ⟨⟨⟨0, 2, 1⟩, 0, 0⟩, [[[0, 0]]], [[1]], [[0]]⟩]
        0 1) [⟨⟨⟨0, 2, 1⟩, 0, 0⟩, [[[2, 0], [0, 2]]], [[1, 1]], [[0, 0]]⟩,
        ⟨⟨⟨0, 2, 1⟩, 0, 0⟩, [[[0, 0]]], [[1]], [[0]]⟩]) 1 =
      some ⟨⟨⟨0, 2, 1⟩, 0, 0⟩, [[[0, 0]]], [[1]], [[0]]⟩ ∧
    Heap.getRef (resHeap (iaddRef [⟨⟨⟨0, 2, 1⟩, 0, 0⟩, [[[2, 0], [0, 2]]],
        [[1, 1]], [[0, 0]]⟩, ⟨⟨⟨0, 2, 1⟩, 0, 0⟩, [[[0, 0]]], [[1]], [[0]]⟩]
        0 1) [⟨⟨⟨0, 2, 1⟩, 0, 0⟩, [[[2, 0], [0, 2]]], [[1, 1]], [[0, 0]]⟩,
        ⟨⟨⟨0, 2, 1⟩, 0, 0⟩, [[[0, 0]]], [[1]], [[0]]⟩]) 1 =
      some ⟨⟨⟨0, 2, 1⟩, 0, 0⟩, [[[0, 0]]], [[1]], [[0]]⟩ ∧
    resRef (iaddRef [⟨⟨⟨0, 2, 1⟩, 0, 0⟩, [[[2, 0], [0, 2]]], [[1, 1]],
        [[0, 0]]⟩, ⟨⟨⟨0, 2, 1⟩, 0, 0⟩, [[[0, 0]]], [[1]], [[0]]⟩] 0 1) 0 =
      0 ∧
    Heap.getRef (resHeap (isubRef [⟨⟨⟨0, 2, 1⟩, 0, 0⟩, [[[2, 0], [0, 2]]],
        [[1, 1]], [[0, 0]]⟩, ⟨⟨⟨0, 2, 1⟩, 0, 0⟩, [[[0, 0]]], [[1]], [[0]]⟩]
        0 1) [⟨⟨⟨0, 2, 1⟩, 0, 0⟩, [[[2, 0], [0, 2]]], [[1, 1]], [[0, 0]]⟩,
        ⟨⟨⟨0, 2, 1⟩, 0, 0⟩, [[[0, 0]]], [[1]], [[0]]⟩]) 1 =
      some ⟨⟨⟨0, 2, 1⟩, 0, 0⟩, [[[0, 0]]], [[1]], [[0]]⟩ ∧
    resRef (isubRef [⟨⟨⟨0, 2, 1⟩, 0, 0⟩, [[[2, 0], [0, 2]]], [[1, 1]],
        [[0, 0]]⟩, ⟨⟨⟨0, 2, 1⟩, 0, 0⟩, [[[0, 0]]], [[1]], [[0]]⟩] 0 1) 0 =
      0 :=
  c10_operand_frame
    [⟨⟨⟨0, 2, 1⟩, 0, 0⟩, [[[2, 0], [0, 2]]], [[1, 1]], [[0, 0]]⟩,
      ⟨⟨⟨0, 2, 1⟩, 0, 0⟩, [[[0, 0]]], [[1]], [[0]]⟩] 0 1
    ⟨⟨⟨0, 2, 1⟩, 0, 0⟩, [[[2, 0], [0, 2]]], [[1, 1]], [[0, 0]]⟩
    ⟨⟨⟨0, 2, 1⟩, 0, 0⟩, [[[0, 0]]], [[1]], [[0]]⟩ (by decide) rfl rfl

end Shenfun
